import Mathlib

/-!
Verification of the Paymob regional checkout server (server.js) against its
natural-language specification.  The server's pure logic is shallowly embedded:
the in-memory checkout-session store, the Egypt checkout orchestration's
arithmetic and call sequencing, and the webhook signature check.  External HTTP
collaborators (Shopify, Paymob) are modelled by their outcomes, passed in as
explicit values; JavaScript numbers are modelled as rationals with an explicit
NaN (Option ℚ).
-/

/-! ## Session store (server.js lines 16-22, 1430-1457)

The server keeps a global Map from token strings to sessions
(checkoutSessions), with a 15-minute TTL.  We model the map as a function
from tokens to optional sessions, and timestamps as integers (milliseconds,
as produced by Date.now()). -/

/-- A stored checkout session: the raw request body stored as the cart, and the
creation time in milliseconds.  The cart payload is opaque to the store, so the
cart type is a parameter. -/
structure Session (α : Type) where
  cart : α
  createdAt : Int
  deriving DecidableEq

/-- SESSION_TTL_MS = 15 * 60 * 1000 (server.js line 18). -/
def SESSION_TTL_MS : Int := 15 * 60 * 1000

/-- The checkoutSessions map: token to optional session. -/
def Store (α : Type) : Type := String → Option (Session α)

/-- Map.set: point update of the store. -/
def storeSet {α : Type} (s : Store α) (t : String) (v : Session α) : Store α :=
  fun t' => if t' = t then some v else s t'

/-- Map.delete: point removal from the store. -/
def storeDelete {α : Type} (s : Store α) (t : String) : Store α :=
  fun t' => if t' = t then none else s t'

/-- Removes a single trailing slash, as in the JavaScript replace of a final
slash with the empty string. -/
def stripTrailingSlash (s : String) : String :=
  if s.toList.getLast? = some '/' then String.mk s.toList.dropLast else s

/-- The redirect URL built by the intake endpoint (server.js lines 1434-1435):
if a base URL is available it is used with any trailing slash stripped,
otherwise the path alone. -/
def checkoutPageUrl (baseUrl token : String) : String :=
  if baseUrl ≠ "" then
    stripTrailingSlash baseUrl ++ "/api/checkout/page?token=" ++ token
  else "/api/checkout/page?token=" ++ token

/-- POST /api/checkout/render (server.js lines 1430-1437): store the request
body under a fresh token with createdAt := Date.now(), and answer with a
redirect URL embedding the token.  The generated random token and the current
time are explicit parameters. -/
def checkoutRender {α : Type} (store : Store α) (baseUrl : String) (body : α)
    (token : String) (now : Int) : Store α × String :=
  (storeSet store token ⟨body, now⟩, checkoutPageUrl baseUrl token)

/-- Outcome of GET /api/checkout/page: 400 missing token, 404 unknown token,
410 expired, or 200 rendering the stored cart. -/
inductive PageResult (α : Type) where
  | missingToken
  | notFound
  | expired
  | page (cart : α)
  deriving DecidableEq

/-- HTTP status code of each page outcome. -/
def PageResult.status {α : Type} : PageResult α → Nat
  | .missingToken => 400
  | .notFound => 404
  | .expired => 410
  | .page _ => 200

/-- GET /api/checkout/page (server.js lines 1439-1457).  A missing or empty
token (JavaScript falsy) gives 400; an absent entry gives 404; an entry older
than the TTL (strictly) is deleted and gives 410; otherwise the entry is
deleted (one-time use) and its cart is rendered. -/
def checkoutPage {α : Type} (store : Store α) (tokenQ : Option String)
    (now : Int) : PageResult α × Store α :=
  match tokenQ with
  | none => (.missingToken, store)
  | some token =>
    if token = "" then (.missingToken, store)
    else
      match store token with
      | none => (.notFound, store)
      | some s =>
        if now - s.createdAt > SESSION_TTL_MS then
          (.expired, storeDelete store token)
        else
          (.page s.cart, storeDelete store token)

/-- C1: a cart stored by the intake endpoint is returned exactly once: the
first consume of the token within the TTL renders the original cart, and a
second consume of the same token answers NotFound (404). -/
theorem render_consume_roundtrip {α : Type} (store : Store α) (baseUrl : String)
    (body : α) (token : String) (now now1 now2 : Int)
    (htok : token ≠ "") (hlive : now1 - now ≤ SESSION_TTL_MS) :
    (checkoutRender store baseUrl body token now).2 = checkoutPageUrl baseUrl token ∧
    (checkoutPage (checkoutRender store baseUrl body token now).1 (some token) now1).1
      = PageResult.page body ∧
    (checkoutPage
        (checkoutPage (checkoutRender store baseUrl body token now).1 (some token) now1).2
        (some token) now2).1 = PageResult.notFound := by
  have hset : (checkoutRender store baseUrl body token now).1 token
      = some ⟨body, now⟩ := by
    simp [checkoutRender, storeSet]
  have hnotexp : ¬ (now1 - now > SESSION_TTL_MS) := by omega
  refine ⟨rfl, ?_, ?_⟩
  · simp [checkoutPage, htok, hset, hnotexp]
  · simp [checkoutPage, htok, hset, hnotexp, storeDelete]

/-- Witness for C1 at a concrete store, token and times. -/
theorem render_consume_roundtrip_witness :
    ("t" : String) ≠ "" ∧ (0 : Int) - 0 ≤ SESSION_TTL_MS ∧
    ((checkoutRender (fun _ => none : Store Nat) "" 7 "t" 0).2 = checkoutPageUrl "" "t" ∧
     (checkoutPage (checkoutRender (fun _ => none : Store Nat) "" 7 "t" 0).1 (some "t") 0).1
       = PageResult.page 7 ∧
     (checkoutPage
         (checkoutPage (checkoutRender (fun _ => none : Store Nat) "" 7 "t" 0).1 (some "t") 0).2
         (some "t") 0).1 = PageResult.notFound) :=
  ⟨by decide, by decide,
   render_consume_roundtrip (fun _ => none) "" 7 "t" 0 0 0 (by decide) (by decide)⟩

/-- C5: consuming a token whose session age strictly exceeds the TTL answers
Expired (410), removes the entry, and a subsequent consume of the same token
answers NotFound (404). -/
theorem consume_expired_removes {α : Type} (store : Store α) (token : String)
    (s : Session α) (now later : Int) (htok : token ≠ "")
    (hfound : store token = some s)
    (hexp : now - s.createdAt > SESSION_TTL_MS) :
    (checkoutPage store (some token) now).1 = PageResult.expired ∧
    (checkoutPage store (some token) now).1.status = 410 ∧
    (checkoutPage store (some token) now).2 token = none ∧
    (checkoutPage (checkoutPage store (some token) now).2 (some token) later).1
      = PageResult.notFound := by
  refine ⟨?_, ?_, ?_, ?_⟩ <;>
    simp [checkoutPage, htok, hfound, hexp, storeDelete, PageResult.status]

/-- Witness for C5: a session created at time 0, consumed just after the TTL. -/
theorem consume_expired_removes_witness :
    ("t" : String) ≠ "" ∧
    ((fun t => if t = "t" then some ⟨5, 0⟩ else none : Store Nat) "t" = some ⟨5, 0⟩) ∧
    (SESSION_TTL_MS + 1) - (0 : Int) > SESSION_TTL_MS ∧
    ((checkoutPage (fun t => if t = "t" then some ⟨5, 0⟩ else none : Store Nat)
        (some "t") (SESSION_TTL_MS + 1)).1 = PageResult.expired ∧
     (checkoutPage (fun t => if t = "t" then some ⟨5, 0⟩ else none : Store Nat)
        (some "t") (SESSION_TTL_MS + 1)).1.status = 410 ∧
     (checkoutPage (fun t => if t = "t" then some ⟨5, 0⟩ else none : Store Nat)
        (some "t") (SESSION_TTL_MS + 1)).2 "t" = none ∧
     (checkoutPage
         (checkoutPage (fun t => if t = "t" then some ⟨5, 0⟩ else none : Store Nat)
            (some "t") (SESSION_TTL_MS + 1)).2 (some "t") (SESSION_TTL_MS + 2)).1
       = PageResult.notFound) :=
  ⟨by decide, by decide, by decide,
   consume_expired_removes _ "t" ⟨5, 0⟩ (SESSION_TTL_MS + 1) (SESSION_TTL_MS + 2)
     (by decide) (by decide) (by decide)⟩

/-- C6 counterexample: the claim says a session whose age equals the TTL
exactly is Gone (consuming it does not return the cart), but the code only
expires strictly older sessions (the comparison is strict), so consuming at
age exactly SESSION_TTL_MS renders the cart with status 200. -/
theorem consume_at_exact_ttl_returns_cart :
    (checkoutPage (fun t => if t = "tok" then some ⟨7, 0⟩ else none : Store Nat)
        (some "tok") SESSION_TTL_MS).1 = PageResult.page 7 ∧
    (checkoutPage (fun t => if t = "tok" then some ⟨7, 0⟩ else none : Store Nat)
        (some "tok") SESSION_TTL_MS).1.status = 200 := by
  constructor <;> decide

/-- C6 amended: a stored, not-yet-consumed session is Live exactly when its
age is at most the TTL (inclusive at the boundary): consuming it returns the
cart iff age ≤ TTL, and signals Expired iff age > TTL.  A consumed or
never-stored token is NotFound. -/
theorem session_live_boundary {α : Type} (store : Store α) (token : String)
    (s : Session α) (now : Int) (htok : token ≠ "")
    (hfound : store token = some s) :
    ((checkoutPage store (some token) now).1 = PageResult.page s.cart ↔
       now - s.createdAt ≤ SESSION_TTL_MS) ∧
    ((checkoutPage store (some token) now).1 = PageResult.expired ↔
       now - s.createdAt > SESSION_TTL_MS) ∧
    (∀ t : String, t ≠ "" → store t = none →
       (checkoutPage store (some t) now).1 = PageResult.notFound) := by
  by_cases hexp : now - s.createdAt > SESSION_TTL_MS
  · refine ⟨?_, ?_, ?_⟩
    · simp [checkoutPage, htok, hfound, hexp] <;> omega
    · simp [checkoutPage, htok, hfound, hexp] <;> omega
    · intro t ht hnone; simp [checkoutPage, ht, hnone]
  · refine ⟨?_, ?_, ?_⟩
    · simp [checkoutPage, htok, hfound, hexp] <;> omega
    · simp [checkoutPage, htok, hfound, hexp] <;> omega
    · intro t ht hnone; simp [checkoutPage, ht, hnone]

/-- Witness for C6 amended, at age exactly the TTL: the iff gives that the
cart is returned at the boundary. -/
theorem session_live_boundary_witness :
    ("tok" : String) ≠ "" ∧
    ((fun t => if t = "tok" then some ⟨7, 0⟩ else none : Store Nat) "tok" = some ⟨7, 0⟩) ∧
    (((checkoutPage (fun t => if t = "tok" then some ⟨7, 0⟩ else none : Store Nat)
          (some "tok") SESSION_TTL_MS).1 = PageResult.page (7 : Nat) ↔
        SESSION_TTL_MS - (0 : Int) ≤ SESSION_TTL_MS) ∧
     ((checkoutPage (fun t => if t = "tok" then some ⟨7, 0⟩ else none : Store Nat)
          (some "tok") SESSION_TTL_MS).1 = PageResult.expired ↔
        SESSION_TTL_MS - (0 : Int) > SESSION_TTL_MS) ∧
     (∀ t : String, t ≠ "" →
        (fun t => if t = "tok" then some ⟨7, 0⟩ else none : Store Nat) t = none →
        (checkoutPage (fun t => if t = "tok" then some ⟨7, 0⟩ else none : Store Nat)
            (some t) SESSION_TTL_MS).1 = PageResult.notFound)) :=
  ⟨by decide, by decide,
   session_live_boundary (fun t => if t = "tok" then some ⟨7, 0⟩ else none)
     "tok" ⟨7, 0⟩ SESSION_TTL_MS (by decide) (by decide)⟩

/-- C10: session-store operations are framed per token.  Creating a session
under a fresh token adds exactly that entry and leaves every other token's
entry unchanged; consuming a token leaves every other token's entry unchanged,
and changes the consumed token's entry at most to absent. -/
theorem session_store_frame {α : Type} (store : Store α) (baseUrl : String)
    (body : α) (token other : String) (now : Int) (hne : other ≠ token) :
    ((checkoutRender store baseUrl body token now).1 token = some ⟨body, now⟩) ∧
    ((checkoutRender store baseUrl body token now).1 other = store other) ∧
    ((checkoutPage store (some token) now).2 other = store other) ∧
    ((checkoutPage store (some token) now).2 token = none ∨
     (checkoutPage store (some token) now).2 token = store token) := by
  refine ⟨?_, ?_, ?_, ?_⟩
  · simp [checkoutRender, storeSet]
  · simp [checkoutRender, storeSet, hne]
  · unfold checkoutPage
    by_cases htok : token = ""
    · simp [htok]
    · rcases hlook : store token with _ | s
      · simp [htok, hlook]
      · by_cases hexp : now - s.createdAt > SESSION_TTL_MS <;>
          simp [htok, hlook, hexp, storeDelete, hne]
  · unfold checkoutPage
    by_cases htok : token = ""
    · simp [htok]
    · rcases hlook : store token with _ | s
      · simp [htok, hlook]
      · by_cases hexp : now - s.createdAt > SESSION_TTL_MS <;>
          simp [htok, hlook, hexp, storeDelete]

/-- Witness for C10 at a concrete store and two distinct tokens. -/
theorem session_store_frame_witness :
    ("u" : String) ≠ "t" ∧
    (((checkoutRender (fun _ => none : Store Nat) "" 3 "t" 0).1 "t" = some ⟨3, 0⟩) ∧
     ((checkoutRender (fun _ => none : Store Nat) "" 3 "t" 0).1 "u"
        = (fun _ => none : Store Nat) "u") ∧
     ((checkoutPage (fun _ => none : Store Nat) (some "t") 0).2 "u"
        = (fun _ => none : Store Nat) "u") ∧
     ((checkoutPage (fun _ => none : Store Nat) (some "t") 0).2 "t" = none ∨
      (checkoutPage (fun _ => none : Store Nat) (some "t") 0).2 "t"
        = (fun _ => none : Store Nat) "t")) :=
  ⟨by decide, session_store_frame (fun _ => none) "" 3 "t" "u" 0 (by decide)⟩

/-! ## JavaScript numbers and values

The Egypt checkout endpoint computes totals with JavaScript number semantics.
Values are modelled by JSVal; JavaScript numbers are modelled as rationals,
and NaN as the none of Option ℚ, which every arithmetic operation propagates.
The Number() coercion on strings covers plain decimal literals (optional sign,
digits, optional fraction), which is the fragment the server can receive in a
JSON cart; any other non-empty string coerces to NaN. -/

/-- A JSON-ish JavaScript value as it occurs in cart item fields. -/
inductive JSVal where
  | num (q : ℚ)
  | str (s : String)
  | nul
  | undef
  | bool (b : Bool)
  deriving DecidableEq

/-- JavaScript truthiness of a value. -/
def JSVal.truthy : JSVal → Bool
  | .num q => q ≠ 0
  | .str s => s ≠ ""
  | .nul => false
  | .undef => false
  | .bool b => b

/-- The JavaScript or-else operator on values: keeps the left operand when it
is truthy, otherwise the right. -/
def jsOr (a b : JSVal) : JSVal := if a.truthy then a else b

/-- Whitespace characters trimmed by the Number() coercion. -/
def jsSpace (c : Char) : Bool :=
  c = ' ' ∨ c = '\t' ∨ c = '\n' ∨ c = '\r'

/-- Numeric value of a digit list read in base 10. -/
def digitsVal (cs : List Char) : Nat :=
  cs.foldl (fun n c => 10 * n + (c.toNat - '0'.toNat)) 0

/-- Parses an unsigned decimal literal: digits with an optional point and
fraction digits, at least one digit in total; anything else is NaN. -/
def parseDecimalCore (cs : List Char) : Option ℚ :=
  let intPart := cs.takeWhile Char.isDigit
  let rest := cs.dropWhile Char.isDigit
  match rest with
  | [] => if intPart.isEmpty then none else some (digitsVal intPart)
  | '.' :: rest2 =>
    let fracPart := rest2.takeWhile Char.isDigit
    let rest3 := rest2.dropWhile Char.isDigit
    if rest3.isEmpty ∧ ¬(intPart.isEmpty ∧ fracPart.isEmpty) then
      some ((digitsVal intPart : ℚ) + (digitsVal fracPart : ℚ) / (10 ^ fracPart.length : ℚ))
    else none
  | _ => none

/-- Number() on a string: whitespace-trimmed, empty means 0, otherwise an
optionally signed decimal literal; non-numeric strings give NaN. -/
def strToNumber (s : String) : Option ℚ :=
  let cs := ((s.toList.dropWhile jsSpace).reverse.dropWhile jsSpace).reverse
  match cs with
  | [] => some 0
  | '-' :: rest => (parseDecimalCore rest).map Neg.neg
  | '+' :: rest => parseDecimalCore rest
  | _ => parseDecimalCore cs

/-- The Number() coercion of a JavaScript value; none is NaN. -/
def JSVal.toNumber : JSVal → Option ℚ
  | .num q => some q
  | .str s => strToNumber s
  | .nul => some 0
  | .undef => none
  | .bool b => some (if b then 1 else 0)

/-- NaN-propagating addition. -/
def numAdd (a b : Option ℚ) : Option ℚ :=
  match a, b with
  | some x, some y => some (x + y)
  | _, _ => none

/-- NaN-propagating multiplication. -/
def numMul (a b : Option ℚ) : Option ℚ :=
  match a, b with
  | some x, some y => some (x * y)
  | _, _ => none

/-- NaN-propagating division. -/
def numDiv (a b : Option ℚ) : Option ℚ :=
  match a, b with
  | some x, some y => some (x / y)
  | _, _ => none

/-- Math.round: rounds half toward positive infinity; NaN stays NaN. -/
def jsRound (a : Option ℚ) : Option ℤ :=
  a.map (fun q => Int.floor (q + 1/2))

/-- Lowercasing as done by toLowerCase on the ASCII method names. -/
def jsToLower (s : String) : String := String.mk (s.toList.map Char.toLower)

/-! ## Egypt checkout orchestration (server.js lines 37-433)

POST /api/checkout/egypt validates configuration, computes the cart total,
creates a Shopify draft order, and either completes it immediately (cash on
delivery) or runs the Paymob authenticate / register-order / payment-key
sequence.  The external collaborators are modelled by a World record giving
each call's outcome; the handler returns the ordered list of collaborator
calls it performed (with the amounts it sent) together with its HTTP
response. -/

/-- A raw cart item as received in the request body; absent fields are the
undefined value. -/
structure RawItem where
  name : String
  price : JSVal
  quantity : JSVal
  deriving DecidableEq

/-- Environment configuration surface used by the Egypt checkout endpoint;
none is an unset variable. -/
structure Env where
  SHOPIFY_STORE_DOMAIN : Option String
  SHOPIFY_ADMIN_ACCESS_TOKEN : Option String
  PAYMOB_API_KEY : Option String
  PAYMOB_INTEGRATION_ID : Option String
  PAYMOB_IFRAME_ID : Option String
  PAYMOB_INTEGRATION_ID_COD : Option String
  PAYMOB_INTEGRATION_ID_WALLET : Option String
  PAYMOB_IFRAME_ID_WALLET : Option String
  PAYMOB_INTEGRATION_ID_CARD : Option String
  PAYMOB_IFRAME_ID_CARD : Option String
  COD_SUCCESS_URL : Option String
  FRONTEND_URL : Option String
  deriving DecidableEq

/-- JavaScript truthiness of an environment value: set and non-empty. -/
def envTruthy (v : Option String) : Bool :=
  match v with
  | some s => s ≠ ""
  | none => false

/-- getMissingEnv's per-key test (server.js lines 28-30): falsy or
whitespace-only. -/
def envMissing (v : Option String) : Bool :=
  !envTruthy v || (v.getD "").toList.all jsSpace

/-- The or-else fallback between environment values, by truthiness. -/
def envOr (a b : Option String) : Option String :=
  if envTruthy a then a else b

/-- Per-method Paymob configuration. -/
structure MethodConfig where
  integrationId : Option String
  iframeId : Option String
  deriving DecidableEq

/-- getPaymobMethodConfig (server.js lines 232-264): method-specific
integration and iframe identifiers, falling back to the default ones; cash on
delivery carries no iframe. -/
def getPaymobMethodConfig (env : Env) (paymobMethod : Option String) : MethodConfig :=
  let method := jsToLower (paymobMethod.getD "")
  let defaults : MethodConfig := ⟨env.PAYMOB_INTEGRATION_ID, env.PAYMOB_IFRAME_ID⟩
  if method = "cod" then
    ⟨envOr env.PAYMOB_INTEGRATION_ID_COD defaults.integrationId, none⟩
  else if method = "wallet" then
    ⟨envOr env.PAYMOB_INTEGRATION_ID_WALLET defaults.integrationId,
     envOr env.PAYMOB_IFRAME_ID_WALLET defaults.iframeId⟩
  else if method = "card" then
    ⟨envOr env.PAYMOB_INTEGRATION_ID_CARD defaults.integrationId,
     envOr env.PAYMOB_IFRAME_ID_CARD defaults.iframeId⟩
  else defaults

/-- The reduce callback of itemsTotal (server.js line 298): the accumulator
plus Number(item.price or 0) * (item.quantity or 1). -/
def itemsTotalStep (acc : Option ℚ) (it : RawItem) : Option ℚ :=
  numAdd acc (numMul (JSVal.toNumber (jsOr it.price (JSVal.num 0)))
                     (JSVal.toNumber (jsOr it.quantity (JSVal.num 1))))

/-- itemsTotal (server.js line 298): the reduce of
Number(item.price or 0) * (item.quantity or 1) over the cart. -/
def egyptItemsTotal (items : List RawItem) : Option ℚ :=
  items.foldl itemsTotalStep (some 0)

/-- A Paymob line item's amount_cents (server.js line 158): the unit price in
cents, Math.round(Number(item.price) * 100). -/
def paymobItemCents (it : RawItem) : Option ℤ :=
  jsRound (numMul it.price.toNumber (some 100))

/-- The reduce callback of the grand total inside paymobRegisterOrder
(server.js lines 172-174): the accumulator plus amount_cents * quantity. -/
def paymobStep (acc : Option ℚ) (it : RawItem) : Option ℚ :=
  numAdd acc (numMul ((paymobItemCents it).map (fun z => ((z : ℤ) : ℚ)))
                     it.quantity.toNumber)

/-- The grand total recomputed inside paymobRegisterOrder (server.js lines
163-174): the reduce of amount_cents * quantity over the cart items plus the
shipping line (10000 cents, quantity 1). -/
def paymobTotalCents (items : List RawItem) : Option ℚ :=
  numAdd (items.foldl paymobStep (some 0)) (some (10000 * 1))

/-- The amount_cents sent by paymobGetPaymentKey (server.js line 201) when
called with exactTotalCents / 100 (server.js line 395):
Math.round(amount * 100). -/
def paymentKeyCents (totalCents : Option ℚ) : Option ℤ :=
  jsRound (numMul (numDiv totalCents (some 100)) (some 100))

/-- Outcomes of the external collaborator calls the handler may make. -/
structure World where
  draft : Except Unit Nat
  codComplete : Except Unit (Option Nat)
  codTag : Except Unit Unit
  auth : Except Unit String
  register : Except Unit Nat
  paymentKey : Except Unit String

/-- A collaborator call performed by the handler, with the amount it sent
where one is sent. -/
inductive EgyAction where
  | createDraft
  | completeCodDraft (draftId : Nat)
  | tagCodOrder (orderId : Nat)
  | paymobAuth
  | paymobRegister (amountCents : Option ℚ)
  | paymobPaymentKey (amountCents : Option ℤ)
  deriving DecidableEq

/-- The handler's response. -/
inductive EgyResponse where
  | envError (msg : String)
  | upstreamError
  | codCompleteError
  | codSuccess (draftId : Nat) (orderId : Option Nat) (redirectUrl : String)
  | paymentSuccess (paymentUrl : Option String) (draftId : Nat)
      (paymobOrderId : Nat) (paymentToken : String)
  deriving DecidableEq

/-- The cash-on-delivery confirmation redirect (server.js lines 307-311). -/
def codRedirectUrl (env : Env) (draftId : Nat) : String :=
  if envTruthy env.COD_SUCCESS_URL then env.COD_SUCCESS_URL.getD ""
  else if envTruthy env.FRONTEND_URL then
    stripTrailingSlash (env.FRONTEND_URL.getD "") ++ "/cod-thank-you?draft="
      ++ toString draftId
  else "/"

/-- The hosted payment page URL (server.js lines 401-403). -/
def paymobIframeUrl (cfg : MethodConfig) (paymentKey : String) : Option String :=
  if envTruthy cfg.iframeId then
    some ("https://accept.paymob.com/api/acceptance/iframes/" ++ cfg.iframeId.getD ""
      ++ "?payment_token=" ++ paymentKey)
  else none

/-- POST /api/checkout/egypt (server.js lines 269-433): configuration checks,
total computation, draft-order creation, then either the COD completion branch
or the Paymob authenticate / register / payment-key sequence.  Any collaborator
failure aborts the sequence: COD completion failures answer the dedicated 500,
all other failures are caught by the outer handler (upstreamError). -/
def egyptCheckout (env : Env) (cartItems : List RawItem)
    (paymobMethod : Option String) (w : World) : List EgyAction × EgyResponse :=
  if envMissing env.SHOPIFY_STORE_DOMAIN || envMissing env.SHOPIFY_ADMIN_ACCESS_TOKEN then
    ([], .envError "Missing Shopify env vars")
  else if envMissing env.PAYMOB_API_KEY then
    ([], .envError "Missing Paymob env vars")
  else
    let cfg := getPaymobMethodConfig env paymobMethod
    if !envTruthy cfg.integrationId then
      ([], .envError "Paymob configuration missing (integration_id)")
    else
      match w.draft with
      | .error _ => ([.createDraft], .upstreamError)
      | .ok draftId =>
        if jsToLower (paymobMethod.getD "") = "cod" then
          match w.codComplete with
          | .error _ => ([.createDraft, .completeCodDraft draftId], .codCompleteError)
          | .ok none =>
            ([.createDraft, .completeCodDraft draftId],
             .codSuccess draftId none (codRedirectUrl env draftId))
          | .ok (some orderId) =>
            match w.codTag with
            | .error _ =>
              ([.createDraft, .completeCodDraft draftId, .tagCodOrder orderId],
               .codCompleteError)
            | .ok _ =>
              ([.createDraft, .completeCodDraft draftId, .tagCodOrder orderId],
               .codSuccess draftId (some orderId) (codRedirectUrl env draftId))
        else
          match w.auth with
          | .error _ => ([.createDraft, .paymobAuth], .upstreamError)
          | .ok _authToken =>
            let totalCents := paymobTotalCents cartItems
            match w.register with
            | .error _ =>
              ([.createDraft, .paymobAuth, .paymobRegister totalCents], .upstreamError)
            | .ok paymobOrderId =>
              match w.paymentKey with
              | .error _ =>
                ([.createDraft, .paymobAuth, .paymobRegister totalCents,
                  .paymobPaymentKey (paymentKeyCents totalCents)], .upstreamError)
              | .ok key =>
                ([.createDraft, .paymobAuth, .paymobRegister totalCents,
                  .paymobPaymentKey (paymentKeyCents totalCents)],
                 .paymentSuccess (paymobIframeUrl cfg key) draftId paymobOrderId key)

/-- The configuration checks the handler performs before any collaborator
call. -/
def egyptEnvOk (env : Env) (paymobMethod : Option String) : Prop :=
  envMissing env.SHOPIFY_STORE_DOMAIN = false ∧
  envMissing env.SHOPIFY_ADMIN_ACCESS_TOKEN = false ∧
  envMissing env.PAYMOB_API_KEY = false ∧
  envTruthy (getPaymobMethodConfig env paymobMethod).integrationId = true



/-- Cart items whose prices and quantities are plain numbers, as sent by the
storefront checkout page. -/
def numericItems (pairs : List (ℚ × ℕ)) : List RawItem :=
  pairs.map (fun pq => ⟨"item", JSVal.num pq.1, JSVal.num (pq.2 : ℚ)⟩)

/-- Modelled from the spec: the claimed gateway amount in minor units, the sum
over items of round(unitPrice * 100) * quantity plus the 10000-cent shipping
fee, stated from the spec's words to be compared with the code's
paymobTotalCents. -/
def specGatewayCents (pairs : List (ℚ × ℕ)) : ℤ :=
  (pairs.map (fun pq => Int.floor (pq.1 * 100 + 1/2) * (pq.2 : ℤ))).sum + 10000

theorem paymobStep_numeric (acc p : ℚ) (n : ℕ) :
    paymobStep (some acc) ⟨"item", JSVal.num p, JSVal.num (n : ℚ)⟩
      = some (acc + ((Int.floor (p * 100 + 1/2) : ℤ) : ℚ) * (n : ℚ)) := by
  simp [paymobStep, paymobItemCents, JSVal.toNumber, numMul, numAdd, jsRound]

theorem paymob_fold_eq (pairs : List (ℚ × ℕ)) (acc : ℚ) :
    (numericItems pairs).foldl paymobStep (some acc)
    = some (acc +
        (((pairs.map (fun pq => Int.floor (pq.1 * 100 + 1/2) * (pq.2 : ℤ))).sum : ℤ) : ℚ)) := by
  induction pairs generalizing acc with
  | nil => simp [numericItems]
  | cons hd tl ih =>
    have hcons : numericItems (hd :: tl)
        = ⟨"item", JSVal.num hd.1, JSVal.num (hd.2 : ℚ)⟩ :: numericItems tl := rfl
    rw [hcons, List.foldl_cons, paymobStep_numeric, ih]
    congr 1
    rw [List.map_cons, List.sum_cons]
    push_cast
    ring

theorem paymobTotalCents_numeric (pairs : List (ℚ × ℕ)) :
    paymobTotalCents (numericItems pairs) = some ((specGatewayCents pairs : ℤ) : ℚ) := by
  unfold paymobTotalCents specGatewayCents
  rw [paymob_fold_eq pairs 0]
  simp only [numAdd]
  congr 1
  push_cast
  ring

theorem paymentKeyCents_int (c : ℤ) :
    paymentKeyCents (some ((c : ℤ) : ℚ)) = some c := by
  unfold paymentKeyCents
  simp only [numDiv, numMul]
  rw [div_mul_cancel₀ _ (by norm_num : (100 : ℚ) ≠ 0)]
  unfold jsRound
  rw [show Option.map (fun q : ℚ => Int.floor (q + 1/2)) (some ((c : ℤ) : ℚ))
        = some (Int.floor (((c : ℤ) : ℚ) + 1/2)) from rfl]
  rw [Int.floor_int_add]
  norm_num

theorem itemsTotalStep_numeric (acc p : ℚ) (n : ℕ) (hn : n ≠ 0) :
    itemsTotalStep (some acc) ⟨"item", JSVal.num p, JSVal.num (n : ℚ)⟩
      = some (acc + p * (n : ℚ)) := by
  have hq : ((n : ℚ)) ≠ 0 := by exact_mod_cast hn
  by_cases hp : p = 0 <;>
    simp [itemsTotalStep, jsOr, JSVal.truthy, JSVal.toNumber, numMul, numAdd, hp, hq]

theorem itemsTotal_fold_eq (pairs : List (ℚ × ℕ)) (acc : ℚ)
    (hq : ∀ pq ∈ pairs, pq.2 ≠ 0) :
    (numericItems pairs).foldl itemsTotalStep (some acc)
    = some (acc + (pairs.map (fun pq => pq.1 * (pq.2 : ℚ))).sum) := by
  induction pairs generalizing acc with
  | nil => simp [numericItems]
  | cons hd tl ih =>
    have hcons : numericItems (hd :: tl)
        = ⟨"item", JSVal.num hd.1, JSVal.num (hd.2 : ℚ)⟩ :: numericItems tl := rfl
    rw [hcons, List.foldl_cons,
      itemsTotalStep_numeric _ _ _ (hq hd (List.mem_cons_self hd tl)), ih _
        (fun pq hm => hq pq (List.mem_cons_of_mem hd hm))]
    rw [List.map_cons, List.sum_cons]
    congr 1
    ring

/-- C2: for a non-COD submission, the amount in minor units sent to the
payment gateway equals the sum over items of round(unitPrice * 100) * quantity
plus 10000 (the 100 EGP shipping fee); the order-registration call and the
payment-key call carry that exact same figure (zero drift); and the submission
total is the item subtotal plus the 100 EGP flat shipping fee. -/
theorem gateway_amount_exact (pairs : List (ℚ × ℕ)) (env : Env)
    (method : Option String) (w : World) (d oid : Nat) (tok key : String)
    (henv : egyptEnvOk env method)
    (hm : jsToLower (method.getD "") ≠ "cod")
    (hd : w.draft = .ok d) (ha : w.auth = .ok tok)
    (hr : w.register = .ok oid) (hk : w.paymentKey = .ok key)
    (hq : ∀ pq ∈ pairs, pq.2 ≠ 0) :
    (egyptCheckout env (numericItems pairs) method w).1 =
      [.createDraft, .paymobAuth,
       .paymobRegister (some ((specGatewayCents pairs : ℤ) : ℚ)),
       .paymobPaymentKey (some (specGatewayCents pairs))] ∧
    numAdd (egyptItemsTotal (numericItems pairs)) (some 100)
      = some ((pairs.map (fun pq => pq.1 * (pq.2 : ℚ))).sum + 100) := by
  obtain ⟨h1, h2, h3, h4⟩ := henv
  constructor
  · simp only [egyptCheckout, h1, h2, h3, h4, hd, ha, hr, hk, hm,
      Bool.or_self, Bool.not_true, if_false, if_true]
    simp [paymobTotalCents_numeric, paymentKeyCents_int]
  · unfold egyptItemsTotal
    rw [itemsTotal_fold_eq pairs 0 hq]
    simp [numAdd, add_comm]

/-- A configuration with the Shopify and Paymob variables set, card method. -/
def envCard : Env :=
  ⟨some "shop.example.com", some "admintoken", some "apikey", some "111",
   some "222", none, none, none, none, none, none, none⟩

/-- All collaborator calls succeed. -/
def worldOk : World := ⟨.ok 1, .ok none, .ok (), .ok "atok", .ok 2, .ok "pkey"⟩

/-- Witness for C2: the spec's example cart, one item of price 100 and
quantity 2: the submission total is 300 and the gateway amount is 30000. -/
theorem gateway_amount_exact_witness :
    specGatewayCents [((100 : ℚ), (2 : ℕ))] = 30000 ∧
    (([((100 : ℚ), (2 : ℕ))].map (fun pq => pq.1 * (pq.2 : ℚ))).sum + 100 = 300) ∧
    ((egyptCheckout envCard (numericItems [((100 : ℚ), (2 : ℕ))]) (some "card") worldOk).1 =
      [.createDraft, .paymobAuth,
       .paymobRegister (some ((specGatewayCents [((100 : ℚ), (2 : ℕ))] : ℤ) : ℚ)),
       .paymobPaymentKey (some (specGatewayCents [((100 : ℚ), (2 : ℕ))]))] ∧
     numAdd (egyptItemsTotal (numericItems [((100 : ℚ), (2 : ℕ))])) (some 100)
       = some (([((100 : ℚ), (2 : ℕ))].map (fun pq => pq.1 * (pq.2 : ℚ))).sum + 100)) :=
  ⟨by norm_num [specGatewayCents], by norm_num,
   gateway_amount_exact [((100 : ℚ), (2 : ℕ))] envCard (some "card") worldOk
     1 2 "atok" "pkey" ⟨by decide, by decide, by decide, by decide⟩
     (by decide) rfl rfl rfl rfl (by simp)⟩

/-- C4: for a cash-on-delivery submission the handler performs none of the
payment-gateway calls (authenticate, register order, payment key); when the
configuration is present and the commerce-collaborator calls succeed it
completes the order record and answers the confirmation redirect. -/
theorem cod_skips_payment_gateway (env : Env) (items : List RawItem)
    (method : Option String) (w : World)
    (hcod : jsToLower (method.getD "") = "cod") :
    (EgyAction.paymobAuth ∉ (egyptCheckout env items method w).1 ∧
     (∀ c, EgyAction.paymobRegister c ∉ (egyptCheckout env items method w).1) ∧
     (∀ c, EgyAction.paymobPaymentKey c ∉ (egyptCheckout env items method w).1)) ∧
    (∀ d res, egyptEnvOk env method → w.draft = .ok d → w.codComplete = .ok res →
       w.codTag = .ok () →
       (egyptCheckout env items method w).2
         = EgyResponse.codSuccess d res (codRedirectUrl env d)) := by
  rcases w with ⟨dr, cc, ct, au, reg, pk⟩
  by_cases h1 : (envMissing env.SHOPIFY_STORE_DOMAIN
      || envMissing env.SHOPIFY_ADMIN_ACCESS_TOKEN) = true
  · constructor
    · refine ⟨?_, fun c => ?_, fun c => ?_⟩ <;> simp [egyptCheckout, h1]
    · intro d res henv hdr hcc hct
      obtain ⟨e1, e2, _, _⟩ := henv
      simp [e1, e2] at h1
  · by_cases h2 : envMissing env.PAYMOB_API_KEY = true
    · constructor
      · refine ⟨?_, fun c => ?_, fun c => ?_⟩ <;> simp [egyptCheckout, h1, h2]
      · intro d res henv hdr hcc hct
        obtain ⟨_, _, e3, _⟩ := henv
        simp [e3] at h2
    · by_cases h3 : envTruthy (getPaymobMethodConfig env method).integrationId = true
      · constructor
        · cases dr <;> rcases cc with _ | ⟨_ | oid⟩ <;> cases ct <;>
            refine ⟨?_, fun c => ?_, fun c => ?_⟩ <;>
            simp [egyptCheckout, h1, h2, h3, hcod]
        · intro d res henv hdr hcc hct
          cases hdr
          cases hcc
          cases hct
          rcases res with _ | oid <;>
            simp [egyptCheckout, h1, h2, h3, hcod]
      · constructor
        · refine ⟨?_, fun c => ?_, fun c => ?_⟩ <;> simp [egyptCheckout, h1, h2, h3]
        · intro d res henv hdr hcc hct
          obtain ⟨_, _, _, e4⟩ := henv
          simp [e4] at h3

/-- Witness for C4: a COD submission against a present configuration with all
commerce calls succeeding. -/
theorem cod_skips_payment_gateway_witness :
    jsToLower ((some "cod").getD "") = "cod" ∧
    ((EgyAction.paymobAuth ∉ (egyptCheckout envCard [] (some "cod") worldOk).1 ∧
      (∀ c, EgyAction.paymobRegister c ∉ (egyptCheckout envCard [] (some "cod") worldOk).1) ∧
      (∀ c, EgyAction.paymobPaymentKey c ∉ (egyptCheckout envCard [] (some "cod") worldOk).1)) ∧
     (∀ d res, egyptEnvOk envCard (some "cod") → worldOk.draft = .ok d →
        worldOk.codComplete = .ok res → worldOk.codTag = .ok () →
        (egyptCheckout envCard [] (some "cod") worldOk).2
          = EgyResponse.codSuccess d res (codRedirectUrl envCard d))) :=
  ⟨by decide, cod_skips_payment_gateway envCard [] (some "cod") worldOk (by decide)⟩

/-- C9 counterexample: the claim says a malformed price is defaulted to zero,
but a malformed (non-empty, non-numeric) price string is truthy, so the
or-zero fallback keeps it and Number() turns it into NaN: the computed cart
total is NaN, not 0 * quantity. -/
theorem malformed_price_yields_nan :
    egyptItemsTotal [⟨"x", JSVal.str "abc", JSVal.num 1⟩] = none ∧
    egyptItemsTotal [⟨"x", JSVal.str "abc", JSVal.num 1⟩] ≠ some 0 := by
  constructor <;> decide

/-- C9 amended: missing prices and quantities (absent, null, or the empty
string, all JavaScript-falsy) are defaulted to zero and one respectively in
the total computation, a malformed non-empty price instead propagates NaN,
and no cart item causes the submission to be refused on validation grounds:
the handler's response does not depend on the cart items at all, only on the
configuration, the method and the collaborator outcomes. -/
theorem permissive_parsing_defaults :
    (JSVal.toNumber (jsOr JSVal.undef (JSVal.num 0)) = some 0 ∧
     JSVal.toNumber (jsOr JSVal.nul (JSVal.num 0)) = some 0 ∧
     JSVal.toNumber (jsOr (JSVal.str "") (JSVal.num 0)) = some 0) ∧
    (JSVal.toNumber (jsOr JSVal.undef (JSVal.num 1)) = some 1 ∧
     JSVal.toNumber (jsOr JSVal.nul (JSVal.num 1)) = some 1 ∧
     JSVal.toNumber (jsOr (JSVal.str "") (JSVal.num 1)) = some 1) ∧
    (∀ (env : Env) (method : Option String) (w : World) (items : List RawItem),
       (egyptCheckout env items method w).2 = (egyptCheckout env [] method w).2) := by
  refine ⟨⟨by decide, by decide, by decide⟩, ⟨by decide, by decide, by decide⟩, ?_⟩
  intro env method w items
  unfold egyptCheckout
  by_cases h1 : (envMissing env.SHOPIFY_STORE_DOMAIN
      || envMissing env.SHOPIFY_ADMIN_ACCESS_TOKEN) = true
  · simp only [h1, if_true]
  · by_cases h2 : envMissing env.PAYMOB_API_KEY = true
    · simp only [h1, h2, if_true, if_false]
    · by_cases h3 : (!envTruthy (getPaymobMethodConfig env method).integrationId) = true
      · simp [h1, h2, h3]
      · rcases w with ⟨dr, cc, ct, au, reg, pk⟩
        cases dr
        · simp [h1, h2, h3]
        · by_cases hcod : jsToLower (method.getD "") = "cod"
          · rcases cc with _ | ⟨_ | oid⟩ <;> cases ct <;> simp [h1, h2, h3, hcod]
          · cases au <;> cases reg <;> cases pk <;> simp [h1, h2, h3, hcod]

/-! ## Webhook finalizer (server.js lines 438-534)

POST /api/paymob/callback recomputes a keyed hash over the fixed
concatenation of twenty payload fields and compares it with the hmac query
parameter by exact string equality; on mismatch it answers 400 without side
effects.  On success=true it completes the Shopify draft order and tags the
resulting order; any downstream failure is caught by the outer handler and
answered 500.  Fields are modelled by their string coercions as used in the
concatenation; the keyed-hash primitive is an explicit function parameter. -/

/-- The payload fields read by the callback handler.  The order field holds
the string coercion used in the concatenation; the merchant order id, read
from the order object on success, is carried separately. -/
structure CallbackData where
  amount_cents : String
  created_at : String
  currency : String
  error_occured : String
  has_parent_transaction : String
  id : String
  integration_id : String
  is_3d_secure : String
  is_auth : String
  is_capture : String
  is_refunded : String
  is_standalone_payment : String
  is_voided : String
  order : String
  owner : String
  pending : String
  source_data_pan : String
  source_data_sub_type : String
  source_data_type : String
  success : String
  merchant_order_id : String
  deriving DecidableEq

/-- The ordered fixed concatenation of signed fields (server.js lines
447-467). -/
def hmacConcat (d : CallbackData) : String :=
  d.amount_cents ++ d.created_at ++ d.currency ++ d.error_occured ++
  d.has_parent_transaction ++ d.id ++ d.integration_id ++ d.is_3d_secure ++
  d.is_auth ++ d.is_capture ++ d.is_refunded ++ d.is_standalone_payment ++
  d.is_voided ++ d.order ++ d.owner ++ d.pending ++ d.source_data_pan ++
  d.source_data_sub_type ++ d.source_data_type ++ d.success

/-- The callback endpoint's response. -/
inductive CbStatus where
  | badSignature
  | acknowledged
  | internalError
  deriving DecidableEq

/-- HTTP status code of each callback outcome: 400 invalid signature, 200
received, 500 caught error. -/
def CbStatus.code : CbStatus → Nat
  | .badSignature => 400
  | .acknowledged => 200
  | .internalError => 500

/-- POST /api/paymob/callback (server.js lines 438-534).  hmacFn is the keyed
hash (HMAC-SHA512) over (secret, message); receivedHmac is the hmac query
parameter; finalize is the outcome of the draft-order completion call
(returning the completed order id when present) and tag the outcome of the
order-tagging call.  Returns the response together with whether the
order-finalization call was performed. -/
def paymobCallback (hmacFn : String → String → String) (secret : String)
    (receivedHmac : Option String) (d : CallbackData)
    (finalize : Except Unit (Option Nat)) (tag : Except Unit Unit) :
    CbStatus × Bool :=
  let calculated := hmacFn secret (hmacConcat d)
  if receivedHmac ≠ some calculated then (.badSignature, false)
  else if d.success = "true" then
    match finalize with
    | .error _ => (.internalError, true)
    | .ok none => (.acknowledged, true)
    | .ok (some _orderId) =>
      match tag with
      | .error _ => (.internalError, true)
      | .ok _ => (.acknowledged, true)
  else (.acknowledged, false)

/-- A callback payload with every field empty. -/
def cbZero : CallbackData :=
  ⟨"", "", "", "", "", "", "", "", "", "", "", "", "", "", "", "", "", "", "", "", ""⟩

/-- C3 counterexample: the claim says a request passing signature verification
is always answered 200, but when the downstream draft-order completion call
fails on a success=true payload, the outer catch answers 500. -/
theorem callback_finalize_failure_returns_500 :
    (paymobCallback (fun _ _ => "h") "secret" (some "h")
        { cbZero with success := "true" } (Except.error ()) (Except.ok ())).1.code = 500 ∧
    (some "h" : Option String)
      = some ((fun _ _ => "h") "secret" (hmacConcat { cbZero with success := "true" })) ∧
    (500 : Nat) ≠ 200 := by
  refine ⟨rfl, rfl, by decide⟩

/-- C3 amended: once signature verification passes the endpoint never answers
400; it answers 200 unless the payload reports success and a downstream
finalization or tagging call fails, in which case it answers 500; the
finalization call is attempted exactly on success=true payloads. -/
theorem callback_valid_signature_status (hmacFn : String → String → String)
    (secret : String) (d : CallbackData) (finalize : Except Unit (Option Nat))
    (tag : Except Unit Unit) :
    (paymobCallback hmacFn secret (some (hmacFn secret (hmacConcat d))) d finalize tag).1.code
      = (if d.success = "true" then
           match finalize with
           | .error _ => 500
           | .ok none => 200
           | .ok (some _) => match tag with | .error _ => 500 | .ok _ => 200
         else 200) ∧
    (paymobCallback hmacFn secret (some (hmacFn secret (hmacConcat d))) d finalize tag).1.code
      ≠ 400 ∧
    (paymobCallback hmacFn secret (some (hmacFn secret (hmacConcat d))) d finalize tag).2
      = (if d.success = "true" then true else false) := by
  by_cases hs : d.success = "true"
  · rcases finalize with _ | ⟨_ | oid⟩ <;> rcases tag with _ | _ <;>
      simp [paymobCallback, hs, CbStatus.code]
  · simp [paymobCallback, hs, CbStatus.code]

/-- C7 counterexample: the fields are concatenated with no separator, so a
payload whose amount_cents and created_at fields are both tampered with (a
digit moved across the field boundary) has the same concatenation, hence the
same keyed hash: verification passes (200, not 400) even though the signed
fields differ from those of the authentic payload. -/
theorem tampered_fields_same_concat_pass :
    ({ cbZero with amount_cents := "12", created_at := "3" } : CallbackData).amount_cents
      ≠ ({ cbZero with amount_cents := "1", created_at := "23" } : CallbackData).amount_cents ∧
    hmacConcat { cbZero with amount_cents := "12", created_at := "3" }
      = hmacConcat { cbZero with amount_cents := "1", created_at := "23" } ∧
    (paymobCallback (fun k m => k ++ m) "s"
        (some ((fun k m => k ++ m) "s"
          (hmacConcat { cbZero with amount_cents := "1", created_at := "23" })))
        { cbZero with amount_cents := "12", created_at := "3" }
        (Except.ok none) (Except.ok ())).1.code = 200 := by
  refine ⟨by decide, by decide, by decide⟩

/-- C7 amended: tampering is detected whenever it changes the keyed hash of
the concatenated signed fields: if the hash of the tampered payload's
concatenation differs from the authentic signature, the endpoint answers 400
and performs no order-finalization call. -/
theorem tamper_rejected_when_hash_differs (hmacFn : String → String → String)
    (secret : String) (authentic tampered : CallbackData)
    (finalize : Except Unit (Option Nat)) (tag : Except Unit Unit)
    (hdiff : hmacFn secret (hmacConcat tampered) ≠ hmacFn secret (hmacConcat authentic)) :
    (paymobCallback hmacFn secret (some (hmacFn secret (hmacConcat authentic)))
        tampered finalize tag).1 = CbStatus.badSignature ∧
    (paymobCallback hmacFn secret (some (hmacFn secret (hmacConcat authentic)))
        tampered finalize tag).1.code = 400 ∧
    (paymobCallback hmacFn secret (some (hmacFn secret (hmacConcat authentic)))
        tampered finalize tag).2 = false := by
  have hne : (some (hmacFn secret (hmacConcat authentic)) : Option String)
      ≠ some (hmacFn secret (hmacConcat tampered)) := by
    intro h
    exact hdiff (Option.some.inj h).symm
  refine ⟨?_, ?_, ?_⟩ <;> simp [paymobCallback, hne, CbStatus.code]

/-- Witness for C7 amended: tampering the amount changes the concatenation
and, for this keyed hash, the digest; the request is rejected with 400. -/
theorem tamper_rejected_when_hash_differs_witness :
    ((fun _ m => m) : String → String → String) "s"
        (hmacConcat { cbZero with amount_cents := "9" })
      ≠ ((fun _ m => m) : String → String → String) "s" (hmacConcat cbZero) ∧
    ((paymobCallback (fun _ m => m) "s"
        (some (((fun _ m => m) : String → String → String) "s" (hmacConcat cbZero)))
        { cbZero with amount_cents := "9" } (Except.ok none) (Except.ok ())).1
      = CbStatus.badSignature ∧
     (paymobCallback (fun _ m => m) "s"
        (some (((fun _ m => m) : String → String → String) "s" (hmacConcat cbZero)))
        { cbZero with amount_cents := "9" } (Except.ok none) (Except.ok ())).1.code = 400 ∧
     (paymobCallback (fun _ m => m) "s"
        (some (((fun _ m => m) : String → String → String) "s" (hmacConcat cbZero)))
        { cbZero with amount_cents := "9" } (Except.ok none) (Except.ok ())).2 = false) :=
  ⟨by decide,
   tamper_rejected_when_hash_differs (fun _ m => m) "s" cbZero
     { cbZero with amount_cents := "9" } (Except.ok none) (Except.ok ()) (by decide)⟩

/-- C8: a request whose signature verifies and whose success field is not the
string "true" (nor the boolean true, which coerces to the same string) is
acknowledged with 200 and no order-finalization call is performed. -/
theorem nonsuccess_acknowledged_without_finalize
    (hmacFn : String → String → String) (secret : String) (d : CallbackData)
    (finalize : Except Unit (Option Nat)) (tag : Except Unit Unit)
    (hns : d.success ≠ "true") :
    (paymobCallback hmacFn secret (some (hmacFn secret (hmacConcat d))) d finalize tag)
      = (CbStatus.acknowledged, false) ∧
    (paymobCallback hmacFn secret (some (hmacFn secret (hmacConcat d))) d finalize tag).1.code
      = 200 := by
  constructor <;> simp [paymobCallback, hns, CbStatus.code]

/-- Witness for C8: an all-empty payload (success is the empty string) with a
matching signature. -/
theorem nonsuccess_acknowledged_without_finalize_witness :
    (cbZero.success ≠ "true") ∧
    ((paymobCallback (fun k m => k ++ m) "s"
        (some ((fun k m => k ++ m) "s" (hmacConcat cbZero))) cbZero
        (Except.ok none) (Except.ok ()))
      = (CbStatus.acknowledged, false) ∧
     (paymobCallback (fun k m => k ++ m) "s"
        (some ((fun k m => k ++ m) "s" (hmacConcat cbZero))) cbZero
        (Except.ok none) (Except.ok ())).1.code = 200) :=
  ⟨by decide,
   nonsuccess_acknowledged_without_finalize (fun k m => k ++ m) "s" cbZero
     (Except.ok none) (Except.ok ()) (by decide)⟩
